import Mathlib

/-!
Verification development for the rusoto code generator
(`codegen/src/generator/mod.rs`) and the client runtime future
(`rusoto/core/src/future.rs`).

The Rust source is shallowly embedded: pure functions become Lean
functions, the output stream written through the `BufWriter` becomes an
explicit list of structured items, `panic!`/`expect` become a dedicated
outcome constructor, and the generic protocol/error-type generators
become records of functions (they live in sibling modules outside the
embedded core and are kept abstract).
-/

namespace Rusoto

/-- Modelled from the spec: the identifier normalization to the output
language conventional lower-delimited (snake case) form.  The actual
implementation is the external `inflector` crate (`to_snake_case`),
which is not part of this repository.  The model lowercases every
character, inserts an underscore before an uppercase character that
follows a lowercase character or a digit, and maps spaces and hyphens
to underscores. -/
def to_snake_case_go : Option Char → List Char → List Char
  | _, [] => []
  | prev, c :: rest =>
    if c = ' ' ∨ c = '-' then
      '_' :: to_snake_case_go (some '_') rest
    else if c.isUpper then
      match prev with
      | some p =>
        if p.isLower ∨ p.isDigit then
          '_' :: c.toLower :: to_snake_case_go (some c.toLower) rest
        else
          c.toLower :: to_snake_case_go (some c.toLower) rest
      | none => c.toLower :: to_snake_case_go (some c.toLower) rest
    else
      c :: to_snake_case_go (some c) rest

/-- Modelled from the spec: `to_snake_case` of the external `inflector`
crate, see `to_snake_case_go`. -/
def to_snake_case (s : String) : String :=
  String.mk (to_snake_case_go none s.data)

/-- Embeds `generate_field_name` of `codegen/src/generator/mod.rs`:
translate a botocore field name to snake case and escape the two
reserved words with a trailing underscore. -/
def generate_field_name (member_name : String) : String :=
  let name := to_snake_case member_name
  if name = "return" ∨ name = "type" then name ++ "_" else name

/-- Embeds `capitalize_first` of `codegen/src/generator/mod.rs`:
uppercase only the first character; the empty string maps to the empty
string. -/
def capitalize_first (word : String) : String :=
  match word.data with
  | [] => ""
  | c :: cs => String.mk (c.toUpper :: cs)

/-- Embeds `mutate_type_name` of `codegen/src/generator/mod.rs`:
capitalize the first character, remove every underscore (the source
writes `replace("_", "")`, which for the one-character pattern is
exactly the removal of every underscore character), then apply the
fixed collision table. -/
def mutate_type_name (type_name : String) : String :=
  let capitalized := capitalize_first type_name
  let without_underscores := String.mk (capitalized.data.filter (fun c => !(c = '_')))
  match without_underscores with
  | "Error" => "S3Error"
  | "CancelSpotFleetRequests" => "EC2CancelSpotFleetRequests"
  | _ => without_underscores

/-- Embeds `error_type_name` of `codegen/src/generator/mod.rs`. -/
def error_type_name (name : String) : String :=
  let type_name := mutate_type_name name
  type_name ++ "Error"

/-- A string is in capitalized form when its first character is fixed
by uppercasing (vacuously true for the empty string). -/
def is_capitalized (s : String) : Bool :=
  match s.data with
  | [] => true
  | c :: _ => c.toUpper = c

/-- A string is underscore-free when no character is an underscore. -/
def underscore_free (s : String) : Bool :=
  s.data.all (fun c => !(c = '_'))

/-- Modelled from the spec (section 3): the shape kind vocabulary of a
`ShapeDefinition`.  The botocore data model module is not part of the
embedded core. -/
inductive ShapeType where
  | Structure
  | List
  | Map
  | Blob
  | Boolean
  | Double
  | Float
  | Integer
  | Long
  | String
  | Timestamp
deriving DecidableEq, Repr

/-- Modelled from the spec (section 3): a `MemberRef` holds the target
shape name, optional documentation and a deprecation flag (the Rust
field is an `Option<bool>`, compared against `Some(true)`). -/
structure Member where
  shape : String
  documentation : Option String
  deprecated : Option Bool
deriving DecidableEq, Repr

/-- Modelled from the spec (section 3): a `ShapeDefinition` with its
kind, optional documentation, exception flag, ordered member mapping
with the set of required member names, and list/map reference names. -/
structure Shape where
  shape_type : ShapeType
  documentation : Option String
  exception : Bool
  members : Option (List (String × Member))
  required_members : List String
  member : Option String
  key : Option String
  value : Option String
deriving DecidableEq, Repr

/-- Modelled from the spec: `Shape::required(member_name)` is
membership in the set of required member names. -/
def Shape.required (shape : Shape) (member_name : String) : Bool :=
  shape.required_members.contains member_name

/-- Modelled from the spec: `Shape::member_type()` is the element
shape name of a List shape (empty when absent). -/
def Shape.member_type (shape : Shape) : String :=
  shape.member.getD ("")

/-- Modelled from the spec: `Shape::key_type()` of a Map shape. -/
def Shape.key_type (shape : Shape) : String :=
  shape.key.getD ("")

/-- Modelled from the spec: `Shape::value_type()` of a Map shape. -/
def Shape.value_type (shape : Shape) : String :=
  shape.value.getD ("")

/-- Modelled from the spec (glossary): an operation is a named remote
call with an input shape and an output shape (either may be absent). -/
structure Operation where
  input : Option String
  output : Option String
deriving DecidableEq, Repr

/-- Modelled from the spec (section 3): the service metadata consumed
by the generator. -/
structure Metadata where
  protocol : String
  service_full_name : String
  service_abbreviation : Option String
deriving DecidableEq, Repr

/-- Modelled from the spec (section 3): a `ServiceDescription` is the
metadata plus an ordered mapping from shape name to shape and the
operations. -/
structure Service where
  metadata : Metadata
  shapes : List (String × Shape)
  operations : List Operation
deriving DecidableEq, Repr

/-- Modelled from the spec: `Service::shape_type_for_member` looks the
member target shape up in the shape mapping and returns its kind. -/
def Service.shape_type_for_member (service : Service) (member : Member) : Option ShapeType :=
  (service.shapes.lookup member.shape).map (fun s => s.shape_type)

/-- One produced struct field of `generate_struct_fields`.  The source
pushes formatted lines into a vector; the embedding keeps the same
information structurally: the escaped doc text, the serde rename
attribute, the blob and optional-boolean serde hints, the field name,
whether the type is `Option`-wrapped, and the translated type name. -/
structure Field where
  doc : Option String
  serde_rename : Option String
  serde_blob : Bool
  serde_skip_if_none : Bool
  name : String
  optional : Bool
  type_name : String
deriving DecidableEq, Repr

/-- One produced type declaration of `generate_types`: a record with no
fields, a record with fields, a sequence alias, a mapping alias, or a
primitive alias. -/
inductive TypeDecl where
  | structEmpty (attributes : String) (name : String)
  | structFields (attributes : String) (name : String) (fields : List Field)
  | listAlias (name : String) (elem : String)
  | mapAlias (name : String) (key : String) (value : String)
  | primAlias (name : String) (target : String)
deriving DecidableEq, Repr

/-- One written output item of `generate_types`: a doc attribute line,
a type declaration, or a custom deserializer/serializer body supplied
by the protocol generator. -/
inductive GenItem where
  | docAttr (text : String)
  | typeDecl (d : TypeDecl)
  | deserializer (body : String)
  | serializer (body : String)
deriving DecidableEq, Repr

/-- The protocol generators (`JsonGenerator` and friends) implement the
`GenerateProtocol` trait in sibling modules outside the embedded core;
they are kept abstract as a record of the trait methods used by the
type-generation pass. -/
structure ProtocolGenerator where
  generate_struct_attributes : String → Bool → Bool → String
  generate_serializer : String → Shape → Service → Option String
  generate_deserializer : String → Shape → Service → Option String
  timestamp_type : String

/-- Embeds the documentation cleanup of `generate_types` and
`generate_struct_fields`: escape backslashes and double quotes. -/
def escape_docs (docs : String) : String :=
  (docs.replace ("\\") ("\\\\")).replace ("\"") ("\\\"")

/-- Embeds the body of the `filter_map` closure of
`generate_struct_fields`: one member either contributes no field
(deprecated) or exactly one `Field`. -/
def field_for (service : Service) (shape : Shape) (serde_attrs : Bool)
    (entry : String × Member) : Option Field :=
  let member_name := entry.1
  let member := entry.2
  if member.deprecated = some true then
    none
  else
    let name := generate_field_name member_name
    let doc := member.documentation.map escape_docs
    let type_name := mutate_type_name member.shape
    let serde_rename := if serde_attrs then some member_name else none
    let serde_blob :=
      serde_attrs && (service.shape_type_for_member member = some ShapeType.Blob)
    let serde_skip_if_none :=
      serde_attrs && (service.shape_type_for_member member = some ShapeType.Boolean)
        && !(shape.required member_name)
    if shape.required member_name then
      some { doc := doc, serde_rename := serde_rename, serde_blob := serde_blob,
             serde_skip_if_none := serde_skip_if_none,
             name := name, optional := false, type_name := type_name }
    else if name = "type" then
      some { doc := doc, serde_rename := serde_rename, serde_blob := serde_blob,
             serde_skip_if_none := serde_skip_if_none,
             name := "aws_" ++ name, optional := true, type_name := type_name }
    else
      some { doc := doc, serde_rename := serde_rename, serde_blob := serde_blob,
             serde_skip_if_none := serde_skip_if_none,
             name := name, optional := true, type_name := type_name }

/-- Embeds `generate_struct_fields` of `codegen/src/generator/mod.rs`:
a `filter_map` over the member mapping. -/
def generate_struct_fields (service : Service) (shape : Shape) (serde_attrs : Bool) :
    List Field :=
  (shape.members.getD []).filterMap (field_for service shape serde_attrs)

/-- The same function with the branch renaming an optional member
named `type` to `aws_type` removed; used to state that the branch is
unreachable. -/
def field_for_no_rename (service : Service) (shape : Shape) (serde_attrs : Bool)
    (entry : String × Member) : Option Field :=
  let member_name := entry.1
  let member := entry.2
  if member.deprecated = some true then
    none
  else
    let name := generate_field_name member_name
    let doc := member.documentation.map escape_docs
    let type_name := mutate_type_name member.shape
    let serde_rename := if serde_attrs then some member_name else none
    let serde_blob :=
      serde_attrs && (service.shape_type_for_member member = some ShapeType.Blob)
    let serde_skip_if_none :=
      serde_attrs && (service.shape_type_for_member member = some ShapeType.Boolean)
        && !(shape.required member_name)
    if shape.required member_name then
      some { doc := doc, serde_rename := serde_rename, serde_blob := serde_blob,
             serde_skip_if_none := serde_skip_if_none,
             name := name, optional := false, type_name := type_name }
    else
      some { doc := doc, serde_rename := serde_rename, serde_blob := serde_blob,
             serde_skip_if_none := serde_skip_if_none,
             name := name, optional := true, type_name := type_name }

/-- `generate_struct_fields` without the `aws_type` rename branch. -/
def generate_struct_fields_no_rename (service : Service) (shape : Shape)
    (serde_attrs : Bool) : List Field :=
  (shape.members.getD []).filterMap (field_for_no_rename service shape serde_attrs)

/-- Embeds `generate_struct` of `codegen/src/generator/mod.rs`: a unit
struct for an absent or empty member mapping, otherwise a struct whose
fields come from `generate_struct_fields`; serde attributes are needed
exactly when the attribute string contains `erialize`. -/
def generate_struct (service : Service) (name : String) (shape : Shape)
    (serialized deserialized : Bool) (pg : ProtocolGenerator) : TypeDecl :=
  if shape.members = none ∨ shape.members.getD [] = [] then
    TypeDecl.structEmpty (pg.generate_struct_attributes name serialized deserialized) name
  else
    let struct_attributes := pg.generate_struct_attributes name serialized deserialized
    let need_serde_attrs := String.containsSubstr struct_attributes ("erialize")
    TypeDecl.structFields struct_attributes name
      (generate_struct_fields service shape need_serde_attrs)

/-- Embeds `generate_list` of `codegen/src/generator/mod.rs`. -/
def generate_list (name : String) (shape : Shape) : TypeDecl :=
  TypeDecl.listAlias name (mutate_type_name shape.member_type)

/-- Embeds `generate_map` of `codegen/src/generator/mod.rs`. -/
def generate_map (name : String) (shape : Shape) : TypeDecl :=
  TypeDecl.mapAlias name (capitalize_first shape.key_type) (capitalize_first shape.value_type)

/-- Embeds `generate_primitive_type` of `codegen/src/generator/mod.rs`;
the `panic!` arm for a non-primitive kind becomes `none`. -/
def generate_primitive_type (name : String) (shape_type : ShapeType)
    (for_timestamps : String) : Option TypeDecl :=
  match shape_type with
  | ShapeType.Blob => some (TypeDecl.primAlias name ("Vec<u8>"))
  | ShapeType.Boolean => some (TypeDecl.primAlias name ("bool"))
  | ShapeType.Double => some (TypeDecl.primAlias name ("f64"))
  | ShapeType.Float => some (TypeDecl.primAlias name ("f32"))
  | ShapeType.Integer => some (TypeDecl.primAlias name ("i32"))
  | ShapeType.Long => some (TypeDecl.primAlias name ("i64"))
  | ShapeType.String => some (TypeDecl.primAlias name ("String"))
  | ShapeType.Timestamp => some (TypeDecl.primAlias name for_timestamps)
  | _ => none

/-- The shape names directly referenced by one shape: structure member
targets, the list element, and the map key and value. -/
def shape_refs (shape : Shape) : List String :=
  (shape.members.getD []).map (fun e => e.2.shape)
    ++ shape.member.toList ++ shape.key.toList ++ shape.value.toList

/-- Modelled from the spec (section 4.2): fuelled worklist traversal
with a visited-set guard, collecting every shape name transitively
reachable from the given roots. -/
def reach_go (shapes : List (String × Shape)) :
    Nat → List String → List String → List String
  | 0, _, visited => visited
  | _ + 1, [], visited => visited
  | fuel + 1, n :: stack, visited =>
    if visited.contains n then
      reach_go shapes fuel stack visited
    else
      match shapes.lookup n with
      | none => reach_go shapes fuel stack (n :: visited)
      | some s => reach_go shapes fuel (shape_refs s ++ stack) (n :: visited)

/-- Modelled from the spec (section 4.2): the set of shape names
reachable from the roots, with fuel generous enough for the worklist. -/
def reach (shapes : List (String × Shape)) (roots : List String) : List String :=
  let total := roots.length
    + (shapes.map (fun e => (shape_refs e.2).length + 1)).sum
  reach_go shapes ((total + 1) * (shapes.length + 1)) roots []

/-- Modelled from the spec (section 4.2): `filter_types` of the
`type_filter` sibling module (not part of the embedded core) computes
the translated names of the shapes reachable from operation inputs
(serialized) and from operation outputs (deserialized). -/
def filter_types (service : Service) : List String × List String :=
  let serialized := reach service.shapes (service.operations.filterMap (fun o => o.input))
  let deserialized := reach service.shapes (service.operations.filterMap (fun o => o.output))
  (serialized.map mutate_type_name, deserialized.map mutate_type_name)

/-- The optional doc attribute item of one shape inside the loop of
`generate_types`. -/
def doc_items_for (shape : Shape) : List GenItem :=
  match shape.documentation with
  | some docs => [GenItem.docAttr (escape_docs docs)]
  | none => []

/-- The type-declaration item of one shape: the dispatch on
`shape.shape_type` inside the loop of `generate_types` (`none` is the
`panic!` of `generate_primitive_type`). -/
def decl_items_for (pg : ProtocolGenerator) (service : Service) (type_name : String)
    (shape : Shape) (serialized deserialized : Bool) : Option (List GenItem) :=
  if type_name ≠ "String" then
    match shape.shape_type with
    | ShapeType.Structure =>
      some [GenItem.typeDecl
        (generate_struct service type_name shape serialized deserialized pg)]
    | ShapeType.Map => some [GenItem.typeDecl (generate_map type_name shape)]
    | ShapeType.List => some [GenItem.typeDecl (generate_list type_name shape)]
    | shape_type =>
      (generate_primitive_type type_name shape_type pg.timestamp_type).map
        (fun d => [GenItem.typeDecl d])
  else
    some []

/-- The optional custom deserializer item of one shape. -/
def deser_items_for (pg : ProtocolGenerator) (service : Service) (type_name : String)
    (shape : Shape) (deserialized : Bool) : List GenItem :=
  if deserialized then
    match pg.generate_deserializer type_name shape service with
    | some body => [GenItem.deserializer body]
    | none => []
  else []

/-- The optional custom serializer item of one shape. -/
def ser_items_for (pg : ProtocolGenerator) (service : Service) (type_name : String)
    (shape : Shape) (serialized : Bool) : List GenItem :=
  if serialized then
    match pg.generate_serializer type_name shape service with
    | some body => [GenItem.serializer body]
    | none => []
  else []

/-- Embeds one iteration of the `for (name, shape)` loop of
`generate_types`: the items written for one shape.  An exception shape
is skipped entirely (`continue`); otherwise the optional doc attribute
is written, then the type declaration unless the translated name is
`String`, then the optional custom deserializer and serializer.  The
`panic!` of `generate_primitive_type` propagates as `none`. -/
def generate_shape_items (pg : ProtocolGenerator) (service : Service)
    (serialized_types deserialized_types : List String)
    (name : String) (shape : Shape) : Option (List GenItem) :=
  let type_name := mutate_type_name name
  if shape.exception then
    some []
  else
    let deserialized := deserialized_types.contains type_name
    let serialized := serialized_types.contains type_name
    match decl_items_for pg service type_name shape serialized deserialized with
    | none => none
    | some decls =>
      some (doc_items_for shape ++ decls
        ++ deser_items_for pg service type_name shape deserialized
        ++ ser_items_for pg service type_name shape serialized)

/-- The loop of `generate_types` over the ordered shape mapping. -/
def generate_types_go (pg : ProtocolGenerator) (service : Service)
    (serialized_types deserialized_types : List String) :
    List (String × Shape) → Option (List GenItem)
  | [] => some []
  | (name, shape) :: rest =>
    match generate_shape_items pg service serialized_types deserialized_types name shape,
        generate_types_go pg service serialized_types deserialized_types rest with
    | some items, some rest_items => some (items ++ rest_items)
    | _, _ => none

/-- Embeds `generate_types` of `codegen/src/generator/mod.rs`. -/
def generate_types (pg : ProtocolGenerator) (service : Service) : Option (List GenItem) :=
  let sets := filter_types service
  generate_types_go pg service sets.1 sets.2 service.shapes

/-- The protocol implementations selected by `generate_source`. -/
inductive ProtocolKind where
  | Json
  | Query
  | RestJson
  | RestXml
deriving DecidableEq, Repr

/-- The error-type generators selected by `generate_source`. -/
inductive ErrorTypeKind where
  | JsonErrorTypes
  | XmlErrorTypes
deriving DecidableEq, Repr

/-- Outcome of one generator run: the normal return carries the
selected protocol and error-type generators and the structured items
written for the shape declarations; `ioError` is a propagated
`std::io::Error`; `panicked` is a fatal abort of the process
(`panic!` or `expect`). -/
inductive GenOutcome where
  | ok (pk : ProtocolKind) (ek : ErrorTypeKind) (items : List GenItem)
  | ioError (msg : String)
  | panicked (msg : String)
deriving DecidableEq, Repr

/-- Embeds `generate` of `codegen/src/generator/mod.rs`: the common
prelude, the protocol prelude, the error-type enumeration, the client
struct and the test module are produced by sibling modules outside the
embedded core; the observable trace kept here is the selected
generator pair and the items of the type-generation pass.  A `panic!`
inside the pass aborts the run. -/
def generate (pg : ProtocolGenerator) (pk : ProtocolKind) (ek : ErrorTypeKind)
    (service : Service) : GenOutcome :=
  match generate_types pg service with
  | none => GenOutcome.panicked ("Unknown primitive type")
  | some items => GenOutcome.ok pk ek items

/-- Embeds `generate_source` of `codegen/src/generator/mod.rs`.  The
file system is abstracted as a function from output path to the result
of `File::create`; the source calls `.expect(...)` on that result, so
a creation failure is a `panic!` (fatal abort), not a propagated
error.  The protocol dispatch selects the (Protocol, ErrorTypes) pair
and an unknown protocol string is a `panic!`. -/
def generate_source (fs : String → Except String Unit)
    (impls : ProtocolKind → ProtocolGenerator)
    (service : Service) (output_path : String) : GenOutcome :=
  match fs output_path with
  | Except.error _ =>
    GenOutcome.panicked ("Could not open file for writing: " ++ output_path)
  | Except.ok _ =>
    match service.metadata.protocol with
    | "json" => generate (impls ProtocolKind.Json) ProtocolKind.Json
        ErrorTypeKind.JsonErrorTypes service
    | "query" | "ec2" => generate (impls ProtocolKind.Query) ProtocolKind.Query
        ErrorTypeKind.XmlErrorTypes service
    | "rest-json" => generate (impls ProtocolKind.RestJson) ProtocolKind.RestJson
        ErrorTypeKind.JsonErrorTypes service
    | "rest-xml" => generate (impls ProtocolKind.RestXml) ProtocolKind.RestXml
        ErrorTypeKind.XmlErrorTypes service
    | protocol => GenOutcome.panicked ("Unknown protocol " ++ protocol)

/-- Embeds `SignAndDispatchError` of `rusoto/core/src/client.rs` (the
error type of the phase-1 future): a credentials error or a dispatch
error. -/
inductive SignAndDispatchError (CredE DispE : Type) where
  | Credentials (e : CredE)
  | Dispatch (e : DispE)
deriving DecidableEq, Repr

/-- Embeds `futures::Async`: a poll either yields a ready value or is
not ready yet. -/
inductive Async (R : Type) where
  | Ready (r : R)
  | NotReady
deriving DecidableEq, Repr

/-- Embeds `RusotoFutureState` of `rusoto/core/src/future.rs`.  The
two boxed inner futures are abstracted as type parameters `F1` (the
sign-and-dispatch `TimeoutFuture`) and `F2` (the response-handler
future); `Resp` is `HttpResponse`. -/
inductive RusotoFutureState (Resp F1 F2 : Type) where
  | SignAndDispatch (future : F1) (handler : Resp → F2)
  | RunningResponseHandler (future : F2)

/-- Embeds `RusotoFuture` of `rusoto/core/src/future.rs`: an optional
state (the state is `take`n during `poll`). -/
structure RusotoFuture (Resp F1 F2 : Type) where
  state : Option (RusotoFutureState Resp F1 F2)

/-- Embeds `RusotoFuture::from(Result<T, E>)`: the future starts
directly in the response-handler phase, holding the immediately ready
result (`value.into_future()`), here represented by the `Except`
value itself as the `F2` inner future. -/
def rusoto_from_result {Resp T E : Type} (F1 : Type) (value : Except E T) :
    RusotoFuture Resp F1 (Except E T) :=
  { state := some (RusotoFutureState.RunningResponseHandler value) }

/-- The observable result of one `poll` call: `Ready`/`NotReady` are
the `Ok` cases, `Err` the error case, and `Panicked` the `unwrap`
panic on an already-resolved future. -/
inductive PollOutcome (T E : Type) where
  | Ready (v : T)
  | NotReady
  | Err (e : E)
  | Panicked
deriving DecidableEq, Repr

/-- Embeds the `RusotoFutureState::RunningResponseHandler` arm of
`RusotoFuture::poll`: poll the handler future; an error propagates via
`?` with the state left `None`; a ready value resolves with the state
left `None`; otherwise the state is restored. -/
def poll_response_handler {Resp T E F1 F2 : Type}
    (poll2 : F2 → F2 × Except E (Async T)) (future : F2) :
    Option (RusotoFutureState Resp F1 F2) × PollOutcome T E :=
  match poll2 future with
  | (_, Except.error e) => (none, PollOutcome.Err e)
  | (_, Except.ok (Async.Ready value)) => (none, PollOutcome.Ready value)
  | (f2, Except.ok Async.NotReady) =>
    (some (RusotoFutureState.RunningResponseHandler f2), PollOutcome.NotReady)

/-- Embeds `RusotoFuture::poll` of `rusoto/core/src/future.rs`.  The
state is `take`n and `unwrap`ped (`Panicked` when `None`).  In the
sign-and-dispatch arm, a credentials or dispatch error resolves with
the converted error; a ready response stores the response-handler
state and recursively calls `self.poll()`, which is exactly the
response-handler arm, inlined here as `poll_response_handler`; not
ready restores the sign-and-dispatch state with the polled future. -/
def rusoto_poll {Resp T E CredE DispE F1 F2 : Type}
    (poll1 : F1 → F1 × Except (SignAndDispatchError CredE DispE) (Async Resp))
    (poll2 : F2 → F2 × Except E (Async T))
    (fromCred : CredE → E) (fromDisp : DispE → E)
    (fut : RusotoFuture Resp F1 F2) :
    RusotoFuture Resp F1 F2 × PollOutcome T E :=
  match fut.state with
  | none => (⟨none⟩, PollOutcome.Panicked)
  | some (RusotoFutureState.SignAndDispatch future handler) =>
    match poll1 future with
    | (_, Except.error (SignAndDispatchError.Credentials e)) =>
      (⟨none⟩, PollOutcome.Err (fromCred e))
    | (_, Except.error (SignAndDispatchError.Dispatch e)) =>
      (⟨none⟩, PollOutcome.Err (fromDisp e))
    | (_, Except.ok (Async.Ready response)) =>
      let r := @poll_response_handler Resp T E F1 F2 poll2 (handler response)
      (⟨r.1⟩, r.2)
    | (f1, Except.ok Async.NotReady) =>
      (⟨some (RusotoFutureState.SignAndDispatch f1 handler)⟩, PollOutcome.NotReady)
  | some (RusotoFutureState.RunningResponseHandler future) =>
    let r := @poll_response_handler Resp T E F1 F2 poll2 future
    (⟨r.1⟩, r.2)

/-- The state transition of one poll, used to iterate the machine. -/
def rusoto_step {Resp T E CredE DispE F1 F2 : Type}
    (poll1 : F1 → F1 × Except (SignAndDispatchError CredE DispE) (Async Resp))
    (poll2 : F2 → F2 × Except E (Async T))
    (fromCred : CredE → E) (fromDisp : DispE → E)
    (st : Option (RusotoFutureState Resp F1 F2)) :
    Option (RusotoFutureState Resp F1 F2) :=
  (rusoto_poll poll1 poll2 fromCred fromDisp ⟨st⟩).1.state

/-- Whether a state is in the sign-and-dispatch phase. -/
def is_sign_and_dispatch {Resp F1 F2 : Type} :
    Option (RusotoFutureState Resp F1 F2) → Prop
  | some (RusotoFutureState.SignAndDispatch _ _) => True
  | _ => False

/-- Embeds `RusotoFuture::set_timeout`: the inner timeout setter is
forwarded to the phase-1 future only when the state is the
sign-and-dispatch phase; any other state is untouched. -/
def rusoto_set_timeout {Resp F1 F2 : Type} (set_t : Nat → F1 → F1) (timeout : Nat)
    (fut : RusotoFuture Resp F1 F2) : RusotoFuture Resp F1 F2 :=
  match fut.state with
  | some (RusotoFutureState.SignAndDispatch future handler) =>
    ⟨some (RusotoFutureState.SignAndDispatch (set_t timeout future) handler)⟩
  | st => ⟨st⟩

/-- Embeds `RusotoFuture::with_timeout`: `set_timeout` on `self`, then
return `self`. -/
def rusoto_with_timeout {Resp F1 F2 : Type} (set_t : Nat → F1 → F1) (timeout : Nat)
    (fut : RusotoFuture Resp F1 F2) : RusotoFuture Resp F1 F2 :=
  rusoto_set_timeout set_t timeout fut

/-- Embeds `RusotoFuture::clear_timeout`: the inner timeout clearer is
forwarded to the phase-1 future only in the sign-and-dispatch phase. -/
def rusoto_clear_timeout {Resp F1 F2 : Type} (clear_t : F1 → F1)
    (fut : RusotoFuture Resp F1 F2) : RusotoFuture Resp F1 F2 :=
  match fut.state with
  | some (RusotoFutureState.SignAndDispatch future handler) =>
    ⟨some (RusotoFutureState.SignAndDispatch (clear_t future) handler)⟩
  | st => ⟨st⟩

/-- Modelled from the spec (section 5): the sign-and-dispatch inner
future behind the `TimeoutFuture` trait of `rusoto/core/src/client.rs`
(not part of the embedded core).  It carries the optional timeout
attached before first evaluation and a script of successive poll
results. -/
structure TimeoutFuture (Resp CredE DispE : Type) where
  timeout : Option Nat
  script : List (Except (SignAndDispatchError CredE DispE) (Async Resp))
deriving Repr

/-- Modelled from the spec (section 5): attaching a timeout replaces
the stored timeout and nothing else. -/
def TimeoutFuture.set_t {Resp CredE DispE : Type} (timeout : Nat)
    (f : TimeoutFuture Resp CredE DispE) : TimeoutFuture Resp CredE DispE :=
  { f with timeout := some timeout }

/-- Modelled from the spec (section 5): clearing the timeout removes
the stored timeout and nothing else. -/
def TimeoutFuture.clear_t {Resp CredE DispE : Type}
    (f : TimeoutFuture Resp CredE DispE) : TimeoutFuture Resp CredE DispE :=
  { f with timeout := none }

/-- Modelled from the spec (section 5): polling a scripted inner
future yields the next scripted result, or not ready once the script
is exhausted. -/
def TimeoutFuture.poll_t {Resp CredE DispE : Type}
    (f : TimeoutFuture Resp CredE DispE) :
    TimeoutFuture Resp CredE DispE
      × Except (SignAndDispatchError CredE DispE) (Async Resp) :=
  match f.script with
  | [] => (f, Except.ok Async.NotReady)
  | r :: rest => ({ f with script := rest }, r)

/-- Modelled from the futures crate (external): polling the future of
`Result::into_future` yields the ready value or the error at once. -/
def result_poll {T E : Type} (r : Except E T) : Except E T × Except E (Async T) :=
  (r, r.map Async.Ready)

/-- The type declarations among a list of generated items. -/
def type_decls (items : List GenItem) : List TypeDecl :=
  items.filterMap (fun i =>
    match i with
    | GenItem.typeDecl d => some d
    | _ => none)

/-- The form of a produced declaration, per the table of section 4.3
of the spec. -/
inductive DeclKind where
  | record
  | seqAlias
  | mapAlias
  | primAlias
deriving DecidableEq, Repr

/-- The form of a `TypeDecl`. -/
def decl_kind : TypeDecl → DeclKind
  | TypeDecl.structEmpty _ _ => DeclKind.record
  | TypeDecl.structFields _ _ _ => DeclKind.record
  | TypeDecl.listAlias _ _ => DeclKind.seqAlias
  | TypeDecl.mapAlias _ _ _ => DeclKind.mapAlias
  | TypeDecl.primAlias _ _ => DeclKind.primAlias

/-- The declaration form prescribed for each shape kind by the table
of section 4.3 of the spec. -/
def shape_decl_kind : ShapeType → DeclKind
  | ShapeType.Structure => DeclKind.record
  | ShapeType.List => DeclKind.seqAlias
  | ShapeType.Map => DeclKind.mapAlias
  | _ => DeclKind.primAlias

/-- Concrete fixture: service metadata with a given protocol string. -/
def example_metadata (protocol : String) : Metadata :=
  { protocol := protocol, service_full_name := "Example Service",
    service_abbreviation := none }

/-- Concrete fixture: a service with a given protocol and shapes. -/
def example_service (protocol : String) (shapes : List (String × Shape)) : Service :=
  { metadata := example_metadata protocol, shapes := shapes, operations := [] }

/-- Concrete fixture: a member reference. -/
def example_member (target : String) (dep : Option Bool) : Member :=
  { shape := target, documentation := none, deprecated := dep }

/-- Concrete fixture: a member-free shape of the given kind. -/
def plain_shape (st : ShapeType) : Shape :=
  { shape_type := st, documentation := none, exception := false,
    members := none, required_members := [], member := none,
    key := none, value := none }

/-- Concrete fixture: a structure shape with the given members and
required names. -/
def struct_shape (members : List (String × Member)) (required : List String) : Shape :=
  { shape_type := ShapeType.Structure, documentation := none, exception := false,
    members := some members, required_members := required, member := none,
    key := none, value := none }

/-- Concrete fixture: a protocol generator whose struct attributes
carry no serde derive and that supplies no custom bodies. -/
def trivial_pg : ProtocolGenerator :=
  { generate_struct_attributes := fun _ _ _ => "#[derive(Debug)]",
    generate_serializer := fun _ _ _ => none,
    generate_deserializer := fun _ _ _ => none,
    timestamp_type := "f64" }

/-- Concrete fixture: every protocol kind maps to the trivial
generator. -/
def trivial_impls : ProtocolKind → ProtocolGenerator := fun _ => trivial_pg

/-- Concrete fixture: a file system on which every creation fails. -/
def failing_fs : String → Except String Unit := fun _ => Except.error ("disk full")

/-- Concrete fixture: a file system on which every creation succeeds. -/
def ok_fs : String → Except String Unit := fun _ => Except.ok ()

theorem capitalize_first_of_capitalized (s : String) (h : is_capitalized s = true) :
    capitalize_first s = s := by
  cases s with
  | mk data =>
    cases data with
    | nil => rfl
    | cons c cs =>
      simp only [is_capitalized, decide_eq_true_eq] at h
      simp [capitalize_first, h]

theorem filter_underscores_of_free (s : String) (h : underscore_free s = true) :
    String.mk (s.data.filter (fun c => !(c = '_'))) = s := by
  cases s with
  | mk data =>
    simp only [underscore_free, List.all_eq_true] at h
    simp only [String.data]
    congr 1
    exact List.filter_eq_self.mpr h

/-- Helper: `generate_field_name` never returns either reserved word. -/
theorem generate_field_name_not_reserved (m : String) :
    generate_field_name m ≠ "return" ∧ generate_field_name m ≠ "type" := by
  unfold generate_field_name
  by_cases h : to_snake_case m = "return" ∨ to_snake_case m = "type"
  · simp only [h, if_true]
    rcases h with h | h <;> rw [h] <;> exact ⟨by decide, by decide⟩
  · push_neg at h
    simp only [if_neg (by tauto : ¬(to_snake_case m = "return" ∨ to_snake_case m = "type"))]
    exact ⟨h.1, h.2⟩

/-- Claim C6: for every member name whose snake-case normalization
equals `return` or `type`, `generate_field_name` returns that
normalization with a trailing underscore appended, so the literal
reserved words `return` and `type` are never returned as a field
identifier for any input. -/
theorem claim_C6_reserved_words_escaped (m : String) :
    ((to_snake_case m = "return" ∨ to_snake_case m = "type") →
      generate_field_name m = to_snake_case m ++ "_") ∧
    generate_field_name m ≠ "return" ∧ generate_field_name m ≠ "type" := by
  refine ⟨?_, generate_field_name_not_reserved m⟩
  intro h
  unfold generate_field_name
  simp only [if_pos h]

/-- Witness for C6 at the concrete member name `Type`. -/
theorem claim_C6_witness :
    to_snake_case ("Type") = "type" ∧
    generate_field_name ("Type") = to_snake_case ("Type") ++ "_" :=
  ⟨by decide,
   (claim_C6_reserved_words_escaped ("Type")).1 (Or.inr (by decide))⟩

/-- Claim C7: `mutate_type_name` maps `Error` to `S3Error` and
`CancelSpotFleetRequests` to `EC2CancelSpotFleetRequests` — distinct
non-colliding names per the fixed collision table — and returns every
other already-capitalized, underscore-free input outside the table
unchanged; consequently it is idempotent on such canonical names. -/
theorem claim_C7_mutate_type_name_table :
    mutate_type_name ("Error") = "S3Error" ∧
    mutate_type_name ("CancelSpotFleetRequests") = "EC2CancelSpotFleetRequests" ∧
    ("S3Error" : String) ≠ "EC2CancelSpotFleetRequests" ∧
    ("S3Error" : String) ≠ "Error" ∧
    ("EC2CancelSpotFleetRequests" : String) ≠ "CancelSpotFleetRequests" ∧
    (∀ s : String, is_capitalized s = true → underscore_free s = true →
      s ≠ "Error" → s ≠ "CancelSpotFleetRequests" → mutate_type_name s = s) ∧
    (∀ s : String, is_capitalized s = true → underscore_free s = true →
      s ≠ "Error" → s ≠ "CancelSpotFleetRequests" →
      mutate_type_name (mutate_type_name s) = mutate_type_name s) := by
  have pass : ∀ s : String, is_capitalized s = true → underscore_free s = true →
      s ≠ "Error" → s ≠ "CancelSpotFleetRequests" → mutate_type_name s = s := by
    intro s h1 h2 h3 h4
    have hc : capitalize_first s = s := capitalize_first_of_capitalized s h1
    have hf : String.mk (s.data.filter (fun c => !(c = '_'))) = s :=
      filter_underscores_of_free s h2
    simp only [mutate_type_name, hc, hf]
  refine ⟨by decide, by decide, by decide, by decide, by decide, pass, ?_⟩
  intro s h1 h2 h3 h4
  rw [pass s h1 h2 h3 h4, pass s h1 h2 h3 h4]

/-- Witness for C7 at the concrete canonical name `Foo`. -/
theorem claim_C7_witness :
    mutate_type_name ("Foo") = "Foo" :=
  claim_C7_mutate_type_name_table.2.2.2.2.2.1 ("Foo")
    (by decide) (by decide) (by decide) (by decide)

/-- C4 counterexample: a non-required, non-deprecated member literally
named `aws_type` normalizes to `aws_type`, is not a reserved word, and
therefore produces — through the ordinary branch, not the renaming
branch — a field named exactly `aws_type`; so the claim that the field
produced by `generate_struct_fields` is never named `aws_type` is
false. -/
theorem claim_C4_counterexample :
    (generate_struct_fields (example_service ("json") [])
      (struct_shape [("aws_type", example_member ("String") none)] [])
      false).map (fun f => f.name) = ["aws_type"] := by
  decide

/-- Claim C4 (amended): the branch of `generate_struct_fields` that
renames an optional member named `type` to an `aws_type` field is
unreachable — the function is extensionally equal to the same function
with that branch removed, because `generate_field_name` never returns
the literal `type` for any member name.  (A field named `aws_type` can
still arise from a member whose own normalized name is literally
`aws_type`, through the ordinary branch.) -/
theorem claim_C4_rename_branch_unreachable (service : Service) (shape : Shape)
    (serde_attrs : Bool) :
    generate_struct_fields service shape serde_attrs
      = generate_struct_fields_no_rename service shape serde_attrs := by
  have hpt : ∀ e : String × Member,
      field_for service shape serde_attrs e
        = field_for_no_rename service shape serde_attrs e := by
    intro e
    have hne : generate_field_name e.1 ≠ "type" :=
      (generate_field_name_not_reserved e.1).2
    by_cases hd : e.2.deprecated = some true
    · simp [field_for, field_for_no_rename, hd]
    · cases hr : shape.required e.1 with
      | true => simp [field_for, field_for_no_rename, hd, hr]
      | false => simp [field_for, field_for_no_rename, hd, hr, hne]
  unfold generate_struct_fields generate_struct_fields_no_rename
  rw [funext hpt]

/-- Claim C5: inside a structure shape, a deprecated member produces no
field; a required member produces a field holding the bare translated
type; a non-required member produces a field holding the
`Option`-wrapped translated type; and `generate_struct_fields` is the
per-member `filter_map` of these contributions, so a contributed field
of a listed member appears in the output. -/
theorem claim_C5_struct_field_rules (service : Service) (shape : Shape)
    (serde_attrs : Bool) (member_name : String) (member : Member) :
    (generate_struct_fields service shape serde_attrs
      = (shape.members.getD []).filterMap (field_for service shape serde_attrs)) ∧
    (member.deprecated = some true →
      field_for service shape serde_attrs (member_name, member) = none) ∧
    (member.deprecated ≠ some true → shape.required member_name = true →
      ∃ f, field_for service shape serde_attrs (member_name, member) = some f ∧
        f.optional = false ∧ f.type_name = mutate_type_name member.shape) ∧
    (member.deprecated ≠ some true → shape.required member_name = false →
      ∃ f, field_for service shape serde_attrs (member_name, member) = some f ∧
        f.optional = true ∧ f.type_name = mutate_type_name member.shape) ∧
    (∀ f, (member_name, member) ∈ shape.members.getD [] →
      field_for service shape serde_attrs (member_name, member) = some f →
      f ∈ generate_struct_fields service shape serde_attrs) := by
  refine ⟨rfl, ?_, ?_, ?_, ?_⟩
  · intro hd
    simp [field_for, hd]
  · intro hd hr
    simp only [field_for, hd, hr, if_true, if_false]
    exact ⟨_, rfl, rfl, rfl⟩
  · intro hd hr
    have ht : ¬ generate_field_name member_name = "type" :=
      (generate_field_name_not_reserved member_name).2
    simp only [field_for, hd, hr, ht, if_true, if_false]
    exact ⟨_, rfl, rfl, rfl⟩
  · intro f hmem hf
    unfold generate_struct_fields
    exact List.mem_filterMap.mpr ⟨(member_name, member), hmem, hf⟩

/-- Witness for C5: a structure with one deprecated and one required
member contributes no field for the former and a bare-typed field for
the latter. -/
theorem claim_C5_witness :
    (field_for (example_service ("json") [])
        (struct_shape [("old_field", example_member ("String") (some true)),
                       ("id", example_member ("String") none)] ["id"])
        false ("old_field", example_member ("String") (some true)) = none) ∧
    (∃ f, field_for (example_service ("json") [])
        (struct_shape [("old_field", example_member ("String") (some true)),
                       ("id", example_member ("String") none)] ["id"])
        false ("id", example_member ("String") none) = some f ∧
      f.optional = false ∧
      f.type_name = mutate_type_name (example_member ("String") none).shape) :=
  ⟨(claim_C5_struct_field_rules (example_service ("json") [])
      (struct_shape [("old_field", example_member ("String") (some true)),
                     ("id", example_member ("String") none)] ["id"])
      false ("old_field") (example_member ("String") (some true))).2.1 (by decide),
   (claim_C5_struct_field_rules (example_service ("json") [])
      (struct_shape [("old_field", example_member ("String") (some true)),
                     ("id", example_member ("String") none)] ["id"])
      false ("id") (example_member ("String") none)).2.2.1
      (by decide) (by decide)⟩

theorem type_decls_append (a b : List GenItem) :
    type_decls (a ++ b) = type_decls a ++ type_decls b :=
  List.filterMap_append a b _

theorem type_decls_single (d : TypeDecl) : type_decls [GenItem.typeDecl d] = [d] := rfl

theorem type_decls_nil : type_decls [] = [] := rfl

theorem type_decls_doc_items (shape : Shape) :
    type_decls (doc_items_for shape) = [] := by
  unfold doc_items_for
  split <;> rfl

theorem type_decls_deser_items (pg : ProtocolGenerator) (service : Service)
    (type_name : String) (shape : Shape) (deserialized : Bool) :
    type_decls (deser_items_for pg service type_name shape deserialized) = [] := by
  unfold deser_items_for
  split
  · split <;> rfl
  · rfl

theorem type_decls_ser_items (pg : ProtocolGenerator) (service : Service)
    (type_name : String) (shape : Shape) (serialized : Bool) :
    type_decls (ser_items_for pg service type_name shape serialized) = [] := by
  unfold ser_items_for
  split
  · split <;> rfl
  · rfl

theorem decl_kind_generate_struct (service : Service) (name : String) (shape : Shape)
    (serialized deserialized : Bool) (pg : ProtocolGenerator) :
    decl_kind (generate_struct service name shape serialized deserialized pg)
      = DeclKind.record := by
  unfold generate_struct
  split <;> rfl

/-- Helper: for a translated name other than `String`, the declaration
dispatch of the type-generation loop emits exactly one declaration,
whose form is the one the 4.3 table prescribes for the shape kind; a
String-kind shape gets a text alias. -/
theorem decl_items_for_spec (pg : ProtocolGenerator) (service : Service)
    (type_name : String) (shape : Shape) (serialized deserialized : Bool)
    (hne : type_name ≠ "String") :
    ∃ d, decl_items_for pg service type_name shape serialized deserialized
        = some [GenItem.typeDecl d] ∧
      decl_kind d = shape_decl_kind shape.shape_type ∧
      (shape.shape_type = ShapeType.String →
        d = TypeDecl.primAlias type_name ("String")) := by
  unfold decl_items_for
  rw [if_pos hne]
  cases hst : shape.shape_type
  case Structure =>
    exact ⟨_, rfl,
      decl_kind_generate_struct service type_name shape serialized deserialized pg,
      fun h => absurd h (by decide)⟩
  case List => exact ⟨_, rfl, rfl, fun h => absurd h (by decide)⟩
  case Map => exact ⟨_, rfl, rfl, fun h => absurd h (by decide)⟩
  case Blob => exact ⟨_, rfl, rfl, fun h => absurd h (by decide)⟩
  case Boolean => exact ⟨_, rfl, rfl, fun h => absurd h (by decide)⟩
  case Double => exact ⟨_, rfl, rfl, fun h => absurd h (by decide)⟩
  case Float => exact ⟨_, rfl, rfl, fun h => absurd h (by decide)⟩
  case Integer => exact ⟨_, rfl, rfl, fun h => absurd h (by decide)⟩
  case Long => exact ⟨_, rfl, rfl, fun h => absurd h (by decide)⟩
  case String => exact ⟨_, rfl, rfl, fun _ => rfl⟩
  case Timestamp => exact ⟨_, rfl, rfl, fun h => absurd h (by decide)⟩

/-- Claim C2 (amended): for every shape in the ordered shape mapping,
the type-generation pass emits nothing for an exception shape, and for
every other shape whose translated type name is not the literal
`String` it emits exactly one declaration whose form is a pure
function of the shape kind per the 4.3 table (String kind giving a
text alias); a non-exception shape whose translated name equals
`String` emits no type declaration at all. -/
theorem claim_C2_shape_declarations (pg : ProtocolGenerator) (service : Service)
    (serialized_types deserialized_types : List String)
    (name : String) (shape : Shape) :
    (shape.exception = true →
      generate_shape_items pg service serialized_types deserialized_types name shape
        = some []) ∧
    (shape.exception = false → mutate_type_name name ≠ "String" →
      ∃ items d,
        generate_shape_items pg service serialized_types deserialized_types name shape
          = some items ∧
        type_decls items = [d] ∧
        decl_kind d = shape_decl_kind shape.shape_type ∧
        (shape.shape_type = ShapeType.String →
          d = TypeDecl.primAlias (mutate_type_name name) ("String"))) ∧
    (shape.exception = false → mutate_type_name name = "String" →
      ∃ items,
        generate_shape_items pg service serialized_types deserialized_types name shape
          = some items ∧
        type_decls items = []) := by
  refine ⟨?_, ?_, ?_⟩
  · intro he
    simp [generate_shape_items, he]
  · intro he hne
    obtain ⟨d, hd, hkind, hstr⟩ := decl_items_for_spec pg service
      (mutate_type_name name) shape
      (serialized_types.contains (mutate_type_name name))
      (deserialized_types.contains (mutate_type_name name)) hne
    refine ⟨doc_items_for shape ++ [GenItem.typeDecl d]
        ++ deser_items_for pg service (mutate_type_name name) shape
            (deserialized_types.contains (mutate_type_name name))
        ++ ser_items_for pg service (mutate_type_name name) shape
            (serialized_types.contains (mutate_type_name name)),
      d, ?_, ?_, hkind, hstr⟩
    · simp only [generate_shape_items, he, Bool.false_eq_true, if_false, hd]
    · simp only [type_decls_append, type_decls_doc_items, type_decls_deser_items,
        type_decls_ser_items, type_decls_single, List.nil_append, List.append_nil]
  · intro he hs
    have hd : decl_items_for pg service (mutate_type_name name) shape
        (serialized_types.contains (mutate_type_name name))
        (deserialized_types.contains (mutate_type_name name)) = some [] := by
      simp [decl_items_for, hs]
    refine ⟨doc_items_for shape ++ []
        ++ deser_items_for pg service (mutate_type_name name) shape
            (deserialized_types.contains (mutate_type_name name))
        ++ ser_items_for pg service (mutate_type_name name) shape
            (serialized_types.contains (mutate_type_name name)), ?_, ?_⟩
    · simp only [generate_shape_items, he, Bool.false_eq_true, if_false, hd]
    · simp only [type_decls_append, type_decls_doc_items, type_decls_deser_items,
        type_decls_ser_items, type_decls_nil, List.nil_append, List.append_nil]

/-- Witness for C2 at a concrete exception shape and a concrete
Integer shape. -/
theorem claim_C2_witness :
    (generate_shape_items trivial_pg (example_service ("json") []) [] []
      ("Oops") { plain_shape ShapeType.Structure with exception := true } = some []) ∧
    (∃ items d,
      generate_shape_items trivial_pg (example_service ("json") []) [] []
        ("Count") (plain_shape ShapeType.Integer) = some items ∧
      type_decls items = [d] ∧
      decl_kind d = shape_decl_kind (plain_shape ShapeType.Integer).shape_type ∧
      ((plain_shape ShapeType.Integer).shape_type = ShapeType.String →
        d = TypeDecl.primAlias (mutate_type_name ("Count")) ("String"))) :=
  ⟨(claim_C2_shape_declarations trivial_pg (example_service ("json") []) [] []
      ("Oops") { plain_shape ShapeType.Structure with exception := true }).1 (by decide),
   (claim_C2_shape_declarations trivial_pg (example_service ("json") []) [] []
      ("Count") (plain_shape ShapeType.Integer)).2.1 (by decide) (by decide)⟩

/-- C2 counterexample: a non-exception String-kind shape literally
named `string` translates to the type name `String`, and the
type-generation pass emits no declaration for it — refuting the claim
that every non-exception String-kind shape yields a text alias
declaration regardless of the shape name. -/
theorem claim_C2_counterexample :
    (plain_shape ShapeType.String).exception = false ∧
    (plain_shape ShapeType.String).shape_type = ShapeType.String ∧
    mutate_type_name ("string") = "String" ∧
    generate_types trivial_pg
      (example_service ("json") [("string", plain_shape ShapeType.String)])
      = some [] := by
  refine ⟨rfl, rfl, by decide, ?_⟩
  decide

/-- Claim C3: when the destination is created successfully,
`generate_source` dispatches on the protocol string pairing `json`
with the JSON generator and JSON error types, `rest-json` with
REST-JSON and JSON error types, `rest-xml` with REST-XML and XML error
types, and `ec2` with the identical (Query, XML error types) pair as
`query`; every protocol string outside the fixed five-member set is a
fatal abort. -/
theorem claim_C3_protocol_dispatch (fs : String → Except String Unit)
    (impls : ProtocolKind → ProtocolGenerator) (service : Service)
    (output_path : String) (h : fs output_path = Except.ok ()) :
    (service.metadata.protocol = "json" →
      generate_source fs impls service output_path
        = generate (impls ProtocolKind.Json) ProtocolKind.Json
            ErrorTypeKind.JsonErrorTypes service) ∧
    (service.metadata.protocol = "query" →
      generate_source fs impls service output_path
        = generate (impls ProtocolKind.Query) ProtocolKind.Query
            ErrorTypeKind.XmlErrorTypes service) ∧
    (service.metadata.protocol = "ec2" →
      generate_source fs impls service output_path
        = generate (impls ProtocolKind.Query) ProtocolKind.Query
            ErrorTypeKind.XmlErrorTypes service) ∧
    (service.metadata.protocol = "rest-json" →
      generate_source fs impls service output_path
        = generate (impls ProtocolKind.RestJson) ProtocolKind.RestJson
            ErrorTypeKind.JsonErrorTypes service) ∧
    (service.metadata.protocol = "rest-xml" →
      generate_source fs impls service output_path
        = generate (impls ProtocolKind.RestXml) ProtocolKind.RestXml
            ErrorTypeKind.XmlErrorTypes service) ∧
    (service.metadata.protocol ∉
        (["json", "query", "ec2", "rest-json", "rest-xml"] : List String) →
      generate_source fs impls service output_path
        = GenOutcome.panicked ("Unknown protocol " ++ service.metadata.protocol)) := by
  unfold generate_source
  rw [h]
  refine ⟨?_, ?_, ?_, ?_, ?_, ?_⟩ <;> intro hp
  · rw [hp]
    rfl
  · rw [hp]
    rfl
  · rw [hp]
    rfl
  · rw [hp]
    rfl
  · rw [hp]
    rfl
  · simp only [List.mem_cons, List.not_mem_nil, or_false, not_or] at hp
    obtain ⟨h1, h2, h3, h4, h5⟩ := hp
    split
    · next heq => exact Except.noConfusion heq
    · split
      · next heq => exact absurd heq h1
      · next heq => exact absurd heq h2
      · next heq => exact absurd heq h3
      · next heq => exact absurd heq h4
      · next heq => exact absurd heq h5
      · rfl

/-- Witness for C3 at a concrete service with protocol `ec2`. -/
theorem claim_C3_witness :
    generate_source ok_fs trivial_impls (example_service ("ec2") []) ("out.rs")
      = generate (trivial_impls ProtocolKind.Query) ProtocolKind.Query
          ErrorTypeKind.XmlErrorTypes (example_service ("ec2") []) :=
  (claim_C3_protocol_dispatch ok_fs trivial_impls (example_service ("ec2") [])
    ("out.rs") rfl).2.2.1 rfl

/-- C1 counterexample: on a file system where creation of the
destination fails, `generate_source` produces a fatal abort (the
`expect` on the `File::create` result), not a propagated I/O error:
the outcome is the `panicked` constructor, which is distinct from the
`ioError` constructor of a propagated `Result` error. -/
theorem claim_C1_counterexample :
    failing_fs ("out.rs") = Except.error ("disk full") ∧
    generate_source failing_fs trivial_impls (example_service ("json") []) ("out.rs")
      = GenOutcome.panicked ("Could not open file for writing: out.rs") ∧
    (∀ msg ∈ ["disk full"],
      generate_source failing_fs trivial_impls (example_service ("json") []) ("out.rs")
        ≠ GenOutcome.ioError msg) := by
  refine ⟨rfl, rfl, ?_⟩
  decide

/-- Claim C1 (amended): if creating/overwriting the output destination
fails, `generate_source` fatally aborts the process with a panic
carrying the could-not-open message — it does not surface the failure
as a propagated error — and this holds for every service and every
output path on which file creation fails. -/
theorem claim_C1_create_failure_panics (fs : String → Except String Unit)
    (impls : ProtocolKind → ProtocolGenerator) (service : Service)
    (output_path : String) (e : String) (h : fs output_path = Except.error e) :
    generate_source fs impls service output_path
      = GenOutcome.panicked ("Could not open file for writing: " ++ output_path) := by
  unfold generate_source
  rw [h]

/-- Witness for C1 at the concrete failing file system. -/
theorem claim_C1_witness :
    generate_source failing_fs trivial_impls (example_service ("query") []) ("svc.rs")
      = GenOutcome.panicked ("Could not open file for writing: " ++ "svc.rs") :=
  claim_C1_create_failure_panics failing_fs trivial_impls
    (example_service ("query") []) ("svc.rs") ("disk full") rfl

/-- Helper: one poll step never moves a state that is not in the
sign-and-dispatch phase back into it. -/
theorem rusoto_step_mono {Resp T E CredE DispE F1 F2 : Type}
    (poll1 : F1 → F1 × Except (SignAndDispatchError CredE DispE) (Async Resp))
    (poll2 : F2 → F2 × Except E (Async T))
    (fromCred : CredE → E) (fromDisp : DispE → E)
    (st : Option (RusotoFutureState Resp F1 F2))
    (h : is_sign_and_dispatch (rusoto_step poll1 poll2 fromCred fromDisp st)) :
    is_sign_and_dispatch st := by
  cases st with
  | none => exact h
  | some s =>
    cases s with
    | SignAndDispatch f1 handler => trivial
    | RunningResponseHandler f2 =>
      exfalso
      revert h
      unfold rusoto_step rusoto_poll poll_response_handler
      rcases h2 : poll2 f2 with ⟨f2b, r⟩
      cases r with
      | error e => simp [h2, is_sign_and_dispatch]
      | ok a =>
        cases a with
        | Ready v => simp [h2, is_sign_and_dispatch]
        | NotReady => simp [h2, is_sign_and_dispatch]

/-- Claim C8: the `RusotoFuture` poll state machine enters the
response-handler phase exactly upon a ready phase-1 response (running
the handler at that same poll), stays in the sign-and-dispatch phase
on a pending phase 1, never transitions back from the response-handler
phase to the sign-and-dispatch phase over any number of polls, and on
a credentials or dispatch error in phase 1 or any error in phase 2
terminates immediately with that error (final state `none`), never
retrying either phase. -/
theorem claim_C8_two_phase_machine {Resp T E CredE DispE F1 F2 : Type}
    (poll1 : F1 → F1 × Except (SignAndDispatchError CredE DispE) (Async Resp))
    (poll2 : F2 → F2 × Except E (Async T))
    (fromCred : CredE → E) (fromDisp : DispE → E) :
    (∀ (f1 f1b : F1) (handler : Resp → F2) (resp : Resp),
      poll1 f1 = (f1b, Except.ok (Async.Ready resp)) →
      rusoto_poll poll1 poll2 fromCred fromDisp
          ⟨some (RusotoFutureState.SignAndDispatch f1 handler)⟩
        = (⟨(@poll_response_handler Resp T E F1 F2 poll2 (handler resp)).1⟩,
           (@poll_response_handler Resp T E F1 F2 poll2 (handler resp)).2)) ∧
    (∀ (f1 f1b : F1) (handler : Resp → F2),
      poll1 f1 = (f1b, Except.ok Async.NotReady) →
      rusoto_poll poll1 poll2 fromCred fromDisp
          ⟨some (RusotoFutureState.SignAndDispatch f1 handler)⟩
        = (⟨some (RusotoFutureState.SignAndDispatch f1b handler)⟩,
           PollOutcome.NotReady)) ∧
    (∀ (f1 f1b : F1) (handler : Resp → F2) (e : CredE),
      poll1 f1 = (f1b, Except.error (SignAndDispatchError.Credentials e)) →
      rusoto_poll poll1 poll2 fromCred fromDisp
          ⟨some (RusotoFutureState.SignAndDispatch f1 handler)⟩
        = (⟨none⟩, PollOutcome.Err (fromCred e))) ∧
    (∀ (f1 f1b : F1) (handler : Resp → F2) (e : DispE),
      poll1 f1 = (f1b, Except.error (SignAndDispatchError.Dispatch e)) →
      rusoto_poll poll1 poll2 fromCred fromDisp
          ⟨some (RusotoFutureState.SignAndDispatch f1 handler)⟩
        = (⟨none⟩, PollOutcome.Err (fromDisp e))) ∧
    (∀ (f2 f2b : F2) (e : E),
      poll2 f2 = (f2b, Except.error e) →
      rusoto_poll poll1 poll2 fromCred fromDisp
          ⟨some (RusotoFutureState.RunningResponseHandler f2)⟩
        = (⟨none⟩, PollOutcome.Err e)) ∧
    (∀ (n : Nat) (st : Option (RusotoFutureState Resp F1 F2)),
      is_sign_and_dispatch ((rusoto_step poll1 poll2 fromCred fromDisp)^[n] st) →
      is_sign_and_dispatch st) := by
  refine ⟨?_, ?_, ?_, ?_, ?_, ?_⟩
  · intro f1 f1b handler resp h
    simp [rusoto_poll, h]
  · intro f1 f1b handler h
    simp [rusoto_poll, h]
  · intro f1 f1b handler e h
    simp [rusoto_poll, h]
  · intro f1 f1b handler e h
    simp [rusoto_poll, h]
  · intro f2 f2b e h
    simp [rusoto_poll, poll_response_handler, h]
  · intro n
    induction n with
    | zero => intro st h; exact h
    | succ k ih =>
      intro st h
      rw [Function.iterate_succ_apply] at h
      exact rusoto_step_mono poll1 poll2 fromCred fromDisp st (ih _ h)

/-- Witness for C8 at concrete scripted futures: a phase-1 script that
is immediately ready hands the response to the handler at that same
poll. -/
theorem claim_C8_witness :
    rusoto_poll (@TimeoutFuture.poll_t Nat Nat Nat)
        (result_poll (T := Nat) (E := Nat)) id id
        ⟨some (RusotoFutureState.SignAndDispatch
          { timeout := none, script := [Except.ok (Async.Ready 7)] }
          (fun r => Except.ok r))⟩
      = (⟨(@poll_response_handler Nat Nat Nat (TimeoutFuture Nat Nat Nat) (Except Nat Nat)
            result_poll (Except.ok 7)).1⟩,
         (@poll_response_handler Nat Nat Nat (TimeoutFuture Nat Nat Nat) (Except Nat Nat)
            result_poll (Except.ok 7)).2) :=
  (claim_C8_two_phase_machine
      (@TimeoutFuture.poll_t Nat Nat Nat)
      (result_poll (T := Nat) (E := Nat)) id id).1
    { timeout := none, script := [Except.ok (Async.Ready 7)] }
    { timeout := none, script := [] }
    (fun r => Except.ok r) 7 rfl

/-- Claim C9: `set_timeout`, `with_timeout` and `clear_timeout` touch
only the inner timeout of the sign-and-dispatch phase future: on a
response-handler state — including a future constructed directly from
a `Result` — and on a resolved (`none`) state they leave the state
entirely unchanged, and on a sign-and-dispatch state holding the
scripted `TimeoutFuture` they change nothing but its `timeout`
field. -/
theorem claim_C9_timeout_frame {Resp T E CredE DispE F2 : Type} (timeout : Nat) :
    (∀ (set_t : Nat → TimeoutFuture Resp CredE DispE → TimeoutFuture Resp CredE DispE)
        (clear_t : TimeoutFuture Resp CredE DispE → TimeoutFuture Resp CredE DispE)
        (f2 : F2),
      rusoto_set_timeout set_t timeout
          (⟨some (RusotoFutureState.RunningResponseHandler f2)⟩ :
            RusotoFuture Resp (TimeoutFuture Resp CredE DispE) F2)
        = ⟨some (RusotoFutureState.RunningResponseHandler f2)⟩ ∧
      rusoto_with_timeout set_t timeout
          (⟨some (RusotoFutureState.RunningResponseHandler f2)⟩ :
            RusotoFuture Resp (TimeoutFuture Resp CredE DispE) F2)
        = ⟨some (RusotoFutureState.RunningResponseHandler f2)⟩ ∧
      rusoto_clear_timeout clear_t
          (⟨some (RusotoFutureState.RunningResponseHandler f2)⟩ :
            RusotoFuture Resp (TimeoutFuture Resp CredE DispE) F2)
        = ⟨some (RusotoFutureState.RunningResponseHandler f2)⟩ ∧
      rusoto_set_timeout set_t timeout
          (⟨none⟩ : RusotoFuture Resp (TimeoutFuture Resp CredE DispE) F2)
        = ⟨none⟩ ∧
      rusoto_clear_timeout clear_t
          (⟨none⟩ : RusotoFuture Resp (TimeoutFuture Resp CredE DispE) F2)
        = ⟨none⟩) ∧
    (∀ (set_t : Nat → TimeoutFuture Resp CredE DispE → TimeoutFuture Resp CredE DispE)
        (value : Except E T),
      rusoto_set_timeout set_t timeout
          (@rusoto_from_result Resp T E (TimeoutFuture Resp CredE DispE) value)
        = rusoto_from_result (TimeoutFuture Resp CredE DispE) value) ∧
    (∀ (tf : TimeoutFuture Resp CredE DispE) (handler : Resp → F2),
      rusoto_set_timeout TimeoutFuture.set_t timeout
          ⟨some (RusotoFutureState.SignAndDispatch tf handler)⟩
        = ⟨some (RusotoFutureState.SignAndDispatch
            { timeout := some timeout, script := tf.script } handler)⟩ ∧
      rusoto_clear_timeout TimeoutFuture.clear_t
          ⟨some (RusotoFutureState.SignAndDispatch tf handler)⟩
        = ⟨some (RusotoFutureState.SignAndDispatch
            { timeout := none, script := tf.script } handler)⟩) := by
  refine ⟨?_, ?_, ?_⟩
  · intro set_t clear_t f2
    exact ⟨rfl, rfl, rfl, rfl, rfl⟩
  · intro set_t value
    rfl
  · intro tf handler
    exact ⟨rfl, rfl⟩

/-- Claim C10: whenever `poll` resolves (a ready value or an error),
the internal state left behind is `none`, and polling a `RusotoFuture`
whose state is `none` is the `unwrap` panic on the taken state — an
edge case at the public `Future` interface that the spec does not
state. -/
theorem claim_C10_poll_after_resolution {Resp T E CredE DispE F1 F2 : Type}
    (poll1 : F1 → F1 × Except (SignAndDispatchError CredE DispE) (Async Resp))
    (poll2 : F2 → F2 × Except E (Async T))
    (fromCred : CredE → E) (fromDisp : DispE → E) :
    (∀ (fut fut2 : RusotoFuture Resp F1 F2) (v : T),
      rusoto_poll poll1 poll2 fromCred fromDisp fut = (fut2, PollOutcome.Ready v) →
      fut2.state = none) ∧
    (∀ (fut fut2 : RusotoFuture Resp F1 F2) (e : E),
      rusoto_poll poll1 poll2 fromCred fromDisp fut = (fut2, PollOutcome.Err e) →
      fut2.state = none) ∧
    (rusoto_poll poll1 poll2 fromCred fromDisp (⟨none⟩ : RusotoFuture Resp F1 F2)
      = (⟨none⟩, PollOutcome.Panicked)) := by
  have hproj : ∀ fut : RusotoFuture Resp F1 F2,
      (∀ v : T, (rusoto_poll poll1 poll2 fromCred fromDisp fut).2 = PollOutcome.Ready v →
        (rusoto_poll poll1 poll2 fromCred fromDisp fut).1.state = none) ∧
      (∀ e : E, (rusoto_poll poll1 poll2 fromCred fromDisp fut).2 = PollOutcome.Err e →
        (rusoto_poll poll1 poll2 fromCred fromDisp fut).1.state = none) := by
    intro fut
    rcases fut with ⟨st⟩
    cases st with
    | none => simp [rusoto_poll]
    | some s =>
      cases s with
      | SignAndDispatch f1 handler =>
        rcases h1 : poll1 f1 with ⟨f1b, r⟩
        cases r with
        | error err =>
          cases err with
          | Credentials e => simp [rusoto_poll, h1]
          | Dispatch e => simp [rusoto_poll, h1]
        | ok a =>
          cases a with
          | NotReady => simp [rusoto_poll, h1]
          | Ready resp =>
            rcases h2 : poll2 (handler resp) with ⟨f2b, r2⟩
            cases r2 with
            | error e => simp [rusoto_poll, poll_response_handler, h1, h2]
            | ok a2 =>
              cases a2 with
              | Ready v => simp [rusoto_poll, poll_response_handler, h1, h2]
              | NotReady => simp [rusoto_poll, poll_response_handler, h1, h2]
      | RunningResponseHandler f2 =>
        rcases h2 : poll2 f2 with ⟨f2b, r2⟩
        cases r2 with
        | error e => simp [rusoto_poll, poll_response_handler, h2]
        | ok a2 =>
          cases a2 with
          | Ready v => simp [rusoto_poll, poll_response_handler, h2]
          | NotReady => simp [rusoto_poll, poll_response_handler, h2]
  refine ⟨?_, ?_, rfl⟩
  · intro fut fut2 v h
    have hfst : (rusoto_poll poll1 poll2 fromCred fromDisp fut).1 = fut2 :=
      congrArg Prod.fst h
    have hsnd : (rusoto_poll poll1 poll2 fromCred fromDisp fut).2 = PollOutcome.Ready v :=
      congrArg Prod.snd h
    rw [← hfst]
    exact (hproj fut).1 v hsnd
  · intro fut fut2 e h
    have hfst : (rusoto_poll poll1 poll2 fromCred fromDisp fut).1 = fut2 :=
      congrArg Prod.fst h
    have hsnd : (rusoto_poll poll1 poll2 fromCred fromDisp fut).2 = PollOutcome.Err e :=
      congrArg Prod.snd h
    rw [← hfst]
    exact (hproj fut).2 e hsnd

/-- Witness for C10: an immediate credentials error resolves the
future and leaves the state `none`. -/
theorem claim_C10_witness :
    rusoto_poll (@TimeoutFuture.poll_t Nat Nat Nat)
        (result_poll (T := Nat) (E := Nat)) id id
        ⟨some (RusotoFutureState.SignAndDispatch
          { timeout := none,
            script := [Except.error (SignAndDispatchError.Credentials 3)] }
          (fun r => Except.ok r))⟩
      = (⟨none⟩, PollOutcome.Err 3) ∧
    (⟨none⟩ : RusotoFuture Nat (TimeoutFuture Nat Nat Nat) (Except Nat Nat)).state
      = none :=
  ⟨rfl,
   (claim_C10_poll_after_resolution
      (@TimeoutFuture.poll_t Nat Nat Nat)
      (result_poll (T := Nat) (E := Nat)) id id).2.1
     ⟨some (RusotoFutureState.SignAndDispatch
       { timeout := none,
         script := [Except.error (SignAndDispatchError.Credentials 3)] }
       (fun r => Except.ok r))⟩
     ⟨none⟩ 3 rfl⟩

end Rusoto
